import Mathlib

/-!
Verification of the emotion-to-risk scoring core of the
Mental-Health-Detection repository.

The scoring functions of `modules/text_emotion.py`, `modules/text_analysis.py`,
`modules/realtime_emotion.py`, `modules/voice_analysis.py` and
`modules/facial_analysis.py` are shallowly embedded below.  Python dicts of
emotion confidences/counts are modelled as association lists `List (String × ℚ)`
with first-match lookup (`getD`), which agrees with `dict.get(k, 0)` whenever
the keys are distinct, as they are at every call site.  Machine floats are
modelled by exact rationals; Python's `round(x, n)` (round-half-to-even on the
value) is modelled exactly on rationals by `pyRound`.
-/

/-- Round-half-to-even on an exact rational, the tie-breaking rule of Python's
built-in `round`. -/
def roundHalfEven (x : ℚ) : ℤ :=
  if x - x.floor < 1/2 then x.floor
  else if 1/2 < x - x.floor then x.floor + 1
  else if x.floor % 2 = 0 then x.floor else x.floor + 1

/-- Model of Python's `round(x, ndigits)` on an exact rational value. -/
def pyRound (x : ℚ) (ndigits : ℕ) : ℚ :=
  (roundHalfEven (x * 10 ^ ndigits) : ℚ) / 10 ^ ndigits

/-- An emotion-label-to-value mapping (a Python dict of scores or counts). -/
abbrev EmotionData := List (String × ℚ)

/-- `d.get(k, 0)`: value of the first entry with key `k`, `0` if absent. -/
def getD : EmotionData → String → ℚ
  | [], _ => 0
  | p :: rest, k => if p.1 = k then p.2 else getD rest k

/-- `k in d`: whether the key is present. -/
def hasKey : EmotionData → String → Bool
  | [], _ => false
  | p :: rest, k => if p.1 = k then true else hasKey rest k

/-- `sum(d.values())`. -/
def valuesSum : EmotionData → ℚ
  | [] => 0
  | p :: rest => p.2 + valuesSum rest

/-- One `{title, content}` entry of an insight generator's output list. -/
structure Insight where
  title : String
  content : String
deriving Repr, DecidableEq

namespace TextEmotion

/-- `positive_emotions` of `text_emotion.calculate_wellness_score`. -/
def positive_emotions : List String := ["joy", "surprise"]

/-- `negative_emotions` of `text_emotion.calculate_wellness_score`. -/
def negative_emotions : List String := ["anger", "sadness", "fear", "disgust"]

/-- `text_emotion.calculate_wellness_score(emotion_data)`: wellness on the
0-10 scale, `(positive + 0.5*neutral) / total * 10`, midpoint `5.0` when the
three partition masses are all zero, rounded to two decimals. -/
def calculate_wellness_score (emotion_data : EmotionData) : ℚ :=
  let positive_score := (positive_emotions.map (getD emotion_data)).sum
  let negative_score := (negative_emotions.map (getD emotion_data)).sum
  let neutral_score := getD emotion_data "neutral"
  let total := positive_score + negative_score + neutral_score
  if total = 0 then 5
  else pyRound (((positive_score + (1/2) * neutral_score) / total) * 10) 2

/-- `weights` of `text_emotion.calculate_risk_score`. -/
def weights : List (String × ℚ) :=
  [("sadness", 45/100), ("fear", 30/100), ("anger", 20/100), ("disgust", 15/100)]

/-- `text_emotion.calculate_risk_score(emotion_data)`: count-aggregate risk on
the 0-10 scale, `Σ proportion * weight * 10` over the weighted labels present,
`0.0` when the counts sum to zero, rounded to two decimals. -/
def calculate_risk_score (emotion_data : EmotionData) : ℚ :=
  let total_entries := valuesSum emotion_data
  if total_entries = 0 then 0
  else
    let risk_score := (weights.map (fun w =>
      if hasKey emotion_data w.1 then
        (getD emotion_data w.1 / total_entries) * w.2 * 10
      else 0)).sum
    pyRound risk_score 2

/-- `text_emotion.get_risk_level(risk_score)`: `(level_name, color, icon)`. -/
def get_risk_level (risk_score : ℚ) : String × String × String :=
  if risk_score ≥ 7 then ("Critical Risk", "#dc3545", "⚠️")
  else if risk_score ≥ 5 then ("High Risk", "#fd7e14", "⚡")
  else if risk_score ≥ 3 then ("Moderate Risk", "#ffc107", "⚠")
  else if risk_score ≥ 1 then ("Low Risk", "#20c997", "ℹ️")
  else ("Minimal Risk", "#28a745", "✓")

/-- `text_emotion.get_wellness_level(wellness_score)`: `(level_name, color, icon)`. -/
def get_wellness_level (wellness_score : ℚ) : String × String × String :=
  if wellness_score ≥ 8 then ("Excellent", "#28a745", "😊")
  else if wellness_score ≥ 6 then ("Good", "#20c997", "🙂")
  else if wellness_score ≥ 4 then ("Fair", "#ffc107", "😐")
  else if wellness_score ≥ 2 then ("Poor", "#fd7e14", "😟")
  else ("Critical", "#dc3545", "😢")

/-- Left fold underlying `maxByValue`: keep the current entry unless a
strictly larger value appears later. -/
def maxByValueAux : String × ℚ → EmotionData → String × ℚ
  | acc, [] => acc
  | acc, q :: rest => maxByValueAux (if q.2 > acc.2 then q else acc) rest

/-- `max(emotion_counts.items(), key=lambda x: x[1])` of
`display_session_analytics`: the first entry with maximal value (Python's
`max` keeps the earliest maximum). -/
def maxByValue : EmotionData → Option (String × ℚ)
  | [] => none
  | p :: rest => some (maxByValueAux p rest)

end TextEmotion

namespace TextAnalysis

/-- `negative_weights` of the inline scoring block of `text_analysis.analyze_text`. -/
def negative_weights : List (String × ℚ) :=
  [("sadness", 45/100), ("fear", 30/100), ("anger", 20/100), ("disgust", 15/100)]

/-- The single-sample risk computation of `text_analysis.analyze_text`
(0-100 scale): `emotion_results` is the classifier's list of
`(label, score)` pairs with probabilities in `[0,1]`; each weighted label
contributes `score * weight * 100`, and the sum is clamped above at 100. -/
def risk_score (emotion_results : List (String × ℚ)) : ℚ :=
  min 100 ((emotion_results.map (fun e =>
    match negative_weights.find? (fun w => w.1 == e.1) with
    | some w => e.2 * w.2 * 100
    | none => 0)).sum)

/-- The single-sample wellness computation of `text_analysis.analyze_text`
(0-100 scale): `((positive + 0.5*neutral) / total) * 100`, `50` when the
partition masses are all zero. -/
def wellness_score (emotion_results : List (String × ℚ)) : ℚ :=
  let positive_score :=
    ((emotion_results.filter (fun e => ["joy", "surprise"].contains e.1)).map Prod.snd).sum
  let negative_score :=
    ((emotion_results.filter (fun e =>
      ["sadness", "fear", "anger", "disgust"].contains e.1)).map Prod.snd).sum
  let neutral_score :=
    ((emotion_results.filter (fun e => e.1 == "neutral")).map Prod.snd).sum
  let total_score := positive_score + negative_score + neutral_score
  if total_score > 0 then ((positive_score + (1/2) * neutral_score) / total_score) * 100
  else 50

end TextAnalysis

namespace Realtime

/-- `positive_emotions` of `realtime_emotion.calculate_wellness_score`
(note: `Neutral` is counted as fully positive in this module). -/
def positive_emotions : List String := ["Happy", "Neutral", "Surprised"]

/-- `negative_emotions` of `realtime_emotion.calculate_wellness_score`. -/
def negative_emotions : List String := ["Sad", "Angry", "Fearful", "Disgusted"]

/-- `realtime_emotion.calculate_wellness_score(emotion_counts, total_frames)`:
0-10 scale, `positive / (positive + negative) * 10`, `5.0` with no frames or
no counted emotions, rounded to one decimal. -/
def calculate_wellness_score (emotion_counts : EmotionData) (total_frames : ℚ) : ℚ :=
  if total_frames = 0 then 5
  else
    let positive_score := (positive_emotions.map (getD emotion_counts)).sum
    let negative_score := (negative_emotions.map (getD emotion_counts)).sum
    let wellness :=
      if positive_score + negative_score > 0 then
        (positive_score / (positive_score + negative_score)) * 10
      else 5
    pyRound wellness 1

/-- `risk_weights` of `realtime_emotion.calculate_risk_score`. -/
def risk_weights : List (String × ℚ) :=
  [("Sad", 45/100), ("Fearful", 40/100), ("Angry", 30/100), ("Disgusted", 20/100)]

/-- `realtime_emotion.calculate_risk_score(emotion_counts, total_frames)`:
frame-based risk on the 0-10 scale.  Each weighted emotion whose percentage of
frames exceeds 20 contributes `(percentage/100) * weight`; if two or more of
{Sad, Fearful, Angry, Disgusted} exceed 20 percent, `0.5` is added to the
(unscaled) accumulator; the result is scaled by 10, clamped above at 10 and
rounded to one decimal.  `0.0` with no frames. -/
def calculate_risk_score (emotion_counts : EmotionData) (total_frames : ℚ) : ℚ :=
  if total_frames = 0 then 0
  else
    let risk := (risk_weights.map (fun w =>
      let emotion_percentage := (getD emotion_counts w.1 / total_frames) * 100
      if emotion_percentage > 20 then (emotion_percentage / 100) * w.2 else 0)).sum
    let negative_count := (["Sad", "Fearful", "Angry", "Disgusted"].countP
      (fun e => decide ((getD emotion_counts e / total_frames) * 100 > 20)))
    let risk := if negative_count ≥ 2 then risk + 1/2 else risk
    pyRound (min 10 (risk * 10)) 1

end Realtime

namespace Voice

/-- `positive_emotions` of `voice_analysis.calculate_wellness_score`
(note: `calm` and `neutral` are counted as fully positive in this module). -/
def positive_emotions : List String := ["happy", "calm", "neutral", "surprise"]

/-- `negative_emotions` of `voice_analysis.calculate_wellness_score`. -/
def negative_emotions : List String := ["sad", "angry", "fear", "disgust"]

/-- `voice_analysis.calculate_wellness_score(emotion_scores, dominant_emotion)`:
0-100 scale, `positive / (positive + negative) * 100` over the capitalized
keys, `50` when both masses are zero, rounded to one decimal.  The
`dominant_emotion` argument is unused, as in the source. -/
def calculate_wellness_score (emotion_scores : EmotionData)
    (dominant_emotion : String) : ℚ :=
  let positive_score :=
    (positive_emotions.map (fun e => getD emotion_scores e.capitalize)).sum
  let negative_score :=
    (negative_emotions.map (fun e => getD emotion_scores e.capitalize)).sum
  let wellness :=
    if positive_score + negative_score > 0 then
      (positive_score / (positive_score + negative_score)) * 100
    else 50
  pyRound wellness 1

/-- `risk_emotions` of `voice_analysis.calculate_risk_score`. -/
def risk_emotions : List (String × ℚ) :=
  [("sad", 3/2), ("fear", 13/10), ("disgust", 11/10), ("angry", 6/5)]

/-- `voice_analysis.calculate_risk_score(emotion_scores, dominant_emotion)`:
0-100 scale, `Σ score * weight` over the capitalized weighted keys, clamped to
`[0, 100]`, rounded to one decimal.  The `dominant_emotion` argument is unused,
as in the source. -/
def calculate_risk_score (emotion_scores : EmotionData)
    (dominant_emotion : String) : ℚ :=
  let risk := (risk_emotions.map (fun w =>
    getD emotion_scores w.1.capitalize * w.2)).sum
  pyRound (min 100 (max 0 risk)) 1

/-- The `Sad > 60` insight of `voice_analysis.generate_voice_insights`. -/
def sadness_voice_insight : Insight :=
  ⟨" Sadness Detected in Voice",
   "Your vocal patterns show signs of sadness or low mood. Consider talking to someone about how you\x27re feeling."⟩

/-- The `tempo < 90` insight of `voice_analysis.generate_voice_insights`. -/
def slower_speech_insight : Insight :=
  ⟨" Slower Speech Rate",
   "Slower speech can sometimes indicate fatigue or low energy. Ensure you\x27re getting adequate rest."⟩

/-- The `tempo > 140` insight of `voice_analysis.generate_voice_insights`. -/
def rapid_speech_insight : Insight :=
  ⟨" Rapid Speech Detected",
   "Fast speech rate may indicate anxiety or stress. Try some calming breathing exercises."⟩

/-- The `risk_score > 70` insight of `voice_analysis.generate_voice_insights`. -/
def elevated_concern_voice_insight : Insight :=
  ⟨" Elevated Concern Level",
   "Voice analysis suggests heightened stress or emotional distress. We recommend consulting with a mental health professional."⟩

/-- The `Happy > 60` insight of `voice_analysis.generate_voice_insights`. -/
def positive_vocal_insight : Insight :=
  ⟨" Positive Vocal Indicators",
   "Your voice reflects positive emotions. Continue engaging in activities that bring you joy!"⟩

/-- `voice_analysis.generate_voice_insights(emotions, tempo, energy, risk_score)`.
The source also computes `dominant_emotion = max(emotions, key=emotions.get)`
but never uses it; that dead assignment is omitted here.  The `energy`
argument is unused, as in the source. -/
def generate_voice_insights (emotions : EmotionData) (tempo energy risk_score : ℚ) :
    List Insight :=
  (if getD emotions "Sad" > 60 then [sadness_voice_insight] else [])
  ++ (if tempo < 90 then [slower_speech_insight]
      else if tempo > 140 then [rapid_speech_insight] else [])
  ++ (if risk_score > 70 then [elevated_concern_voice_insight] else [])
  ++ (if getD emotions "Happy" > 60 then [positive_vocal_insight] else [])

end Voice

namespace Facial

/-- `facial_analysis.calculate_facial_risk_score(emotions)`: base score 50,
adjusted by fixed deltas on emotion thresholds, clamped to `[0, 100]`. -/
def calculate_facial_risk_score (emotions : EmotionData) : ℚ :=
  let score : ℚ := 50
  let score := if getD emotions "Sad" > 50 then score + 25 else score
  let score := if getD emotions "Fearful" > 40 then score + 20 else score
  let score := if getD emotions "Angry" > 50 then score + 15 else score
  let score := if getD emotions "Happy" > 60 then score - 25 else score
  let score := if getD emotions "Neutral" > 70 then score - 10 else score
  min 100 (max 0 score)

/-- The `dominant_emotion == 'Happy'` insight of `generate_facial_insights`. -/
def positive_state_insight : Insight :=
  ⟨" Positive Emotional State",
   "Your facial expressions indicate a positive emotional state. This is a good sign of mental well-being!"⟩

/-- The `dominant_emotion == 'Sad'` insight of `generate_facial_insights`. -/
def signs_of_sadness_insight : Insight :=
  ⟨" Signs of Sadness",
   "Facial analysis shows indicators of sadness. It\x27s important to acknowledge these feelings and consider reaching out for support."⟩

/-- The `dominant_emotion == 'Angry'` insight of `generate_facial_insights`. -/
def anger_insight : Insight :=
  ⟨" Anger or Frustration Detected",
   "Your expression suggests anger or frustration. Consider stress management techniques like deep breathing or physical exercise."⟩

/-- The `Fearful > 40` insight of `generate_facial_insights`. -/
def anxiety_insight : Insight :=
  ⟨" Anxiety Indicators",
   "Facial features suggest anxiety or fear. Practicing mindfulness and relaxation techniques may help."⟩

/-- The `risk_score > 70` insight of `generate_facial_insights`. -/
def elevated_concern_facial_insight : Insight :=
  ⟨" Elevated Concern Level",
   "Facial analysis indicates significant emotional distress. We strongly recommend consulting with a mental health professional."⟩

/-- `facial_analysis.generate_facial_insights(emotions, risk_score, dominant_emotion)`. -/
def generate_facial_insights (emotions : EmotionData) (risk_score : ℚ)
    (dominant_emotion : String) : List Insight :=
  (if dominant_emotion = "Happy" then [positive_state_insight]
   else if dominant_emotion = "Sad" then [signs_of_sadness_insight]
   else if dominant_emotion = "Angry" then [anger_insight]
   else [])
  ++ (if getD emotions "Fearful" > 40 then [anxiety_insight] else [])
  ++ (if risk_score > 70 then [elevated_concern_facial_insight] else [])

end Facial

/-- The canonical lowercase EmotionVector/EmotionCounts dict of the text
modules, with every recognized label present, in the key order of
`text_emotion.display_session_analytics`. -/
def textVector (joy sadness anger fear surprise disgust neutral : ℚ) : EmotionData :=
  [("joy", joy), ("sadness", sadness), ("anger", anger), ("fear", fear),
   ("surprise", surprise), ("disgust", disgust), ("neutral", neutral)]

/-- The canonical capitalized EmotionCounts dict of the frame-based module,
with every recognized label present, in the index order of
`realtime_emotion.emotion_dict`. -/
def frameCounts (angry disgusted fearful happy neutral sad surprised : ℚ) : EmotionData :=
  [("Angry", angry), ("Disgusted", disgusted), ("Fearful", fearful),
   ("Happy", happy), ("Neutral", neutral), ("Sad", sad), ("Surprised", surprised)]

/-- The canonical capitalized emotion-score dict of the voice module, with
every label that its scorers look up present. -/
def voiceVector (angry calm disgust fear happy neutral sad surprise : ℚ) : EmotionData :=
  [("Angry", angry), ("Calm", calm), ("Disgust", disgust), ("Fear", fear),
   ("Happy", happy), ("Neutral", neutral), ("Sad", sad), ("Surprise", surprise)]

/-- Modelled from the claim of C1 for comparison with the source: the
frame-based risk scorer as it would be with the spec's fixed weight table
(sadness/sad 0.45, fear/fearful 0.30, anger/angry 0.20, disgust/disgusted
0.15), everything else as in `Realtime.calculate_risk_score`. -/
def claimedFrameRisk (emotion_counts : EmotionData) (total_frames : ℚ) : ℚ :=
  if total_frames = 0 then 0
  else
    let claimed_weights : List (String × ℚ) :=
      [("Sad", 45/100), ("Fearful", 30/100), ("Angry", 20/100), ("Disgusted", 15/100)]
    let risk := (claimed_weights.map (fun w =>
      let emotion_percentage := (getD emotion_counts w.1 / total_frames) * 100
      if emotion_percentage > 20 then (emotion_percentage / 100) * w.2 else 0)).sum
    let negative_count := (["Sad", "Fearful", "Angry", "Disgusted"].countP
      (fun e => decide ((getD emotion_counts e / total_frames) * 100 > 20)))
    let risk := if negative_count ≥ 2 then risk + 1/2 else risk
    pyRound (min 10 (risk * 10)) 1

/-- Modelled from the claim of C2 for comparison with the source: the
frame-based wellness scorer as it would be with the spec's formula
`((positive + 0.5 * neutral) / (positive + negative + neutral)) * scale_max`
with POSITIVE = {Happy, Surprised}, NEGATIVE = {Sad, Angry, Fearful,
Disgusted}, NEUTRAL = {Neutral}, on the 0-10 scale. -/
def claimedFrameWellness (emotion_counts : EmotionData) (total_frames : ℚ) : ℚ :=
  if total_frames = 0 then 5
  else
    let positive_score := (["Happy", "Surprised"].map (getD emotion_counts)).sum
    let negative_score :=
      (["Sad", "Angry", "Fearful", "Disgusted"].map (getD emotion_counts)).sum
    let neutral_score := getD emotion_counts "Neutral"
    let total := positive_score + negative_score + neutral_score
    if total = 0 then 5
    else pyRound (((positive_score + (1/2) * neutral_score) / total) * 10) 2

/-- Modelled from the claim of C4 for comparison with the source: the
frame-based risk scorer as it would be if the escalation bonus were
`0.5 * scale_max / 10 = 0.5` added to the risk score on the final 0-10 scale
before the clamp, everything else (weights, gating) as in
`Realtime.calculate_risk_score`. -/
def claimedFrameRiskSpecBonus (emotion_counts : EmotionData) (total_frames : ℚ) : ℚ :=
  if total_frames = 0 then 0
  else
    let risk := (Realtime.risk_weights.map (fun w =>
      let emotion_percentage := (getD emotion_counts w.1 / total_frames) * 100
      if emotion_percentage > 20 then (emotion_percentage / 100) * w.2 else 0)).sum
    let negative_count := (["Sad", "Fearful", "Angry", "Disgusted"].countP
      (fun e => decide ((getD emotion_counts e / total_frames) * 100 > 20)))
    let bonus : ℚ := if negative_count ≥ 2 then (1/2) * 10 / 10 else 0
    pyRound (min 10 (max 0 (risk * 10 + bonus))) 1

/-- Modelled from the claim of C1 for comparison with the source: the voice
risk scorer as it would be with the spec's fixed weight table on the 0-100
probability scale (`risk = Σ weight * probability`, probabilities already on
0-100), everything else as in `Voice.calculate_risk_score`. -/
def claimedVoiceRisk (emotion_scores : EmotionData) : ℚ :=
  let claimed_weights : List (String × ℚ) :=
    [("sad", 45/100), ("fear", 30/100), ("disgust", 15/100), ("angry", 20/100)]
  let risk := (claimed_weights.map (fun w =>
    getD emotion_scores w.1.capitalize * w.2)).sum
  pyRound (min 100 (max 0 risk)) 1

/-! ## Helper lemmas -/

theorem ratFloor_eq_intFloor (x : ℚ) : x.floor = ⌊x⌋ :=
  (Rat.floor_def' x).trans Rat.floor_def.symm

theorem roundHalfEven_intCast (n : ℤ) : roundHalfEven (n : ℚ) = n := by
  unfold roundHalfEven
  rw [ratFloor_eq_intFloor, Int.floor_intCast]
  norm_num

theorem roundHalfEven_mono {x y : ℚ} (h : x ≤ y) :
    roundHalfEven x ≤ roundHalfEven y := by
  have hf : ⌊x⌋ ≤ ⌊y⌋ := Int.floor_mono h
  rcases eq_or_lt_of_le hf with heq | hlt
  · unfold roundHalfEven
    rw [ratFloor_eq_intFloor, ratFloor_eq_intFloor, ← heq]
    split_ifs <;> first | omega | (exfalso; linarith)
  · have h1 : roundHalfEven x ≤ ⌊x⌋ + 1 := by
      unfold roundHalfEven; rw [ratFloor_eq_intFloor]; split_ifs <;> omega
    have h2 : ⌊y⌋ ≤ roundHalfEven y := by
      unfold roundHalfEven; rw [ratFloor_eq_intFloor]; split_ifs <;> omega
    omega

theorem pyRound_mono {x y : ℚ} (n : ℕ) (h : x ≤ y) : pyRound x n ≤ pyRound y n := by
  unfold pyRound
  have hp : (0:ℚ) < 10 ^ n := by positivity
  have hm := roundHalfEven_mono (mul_le_mul_of_nonneg_right h hp.le)
  exact (div_le_div_iff_of_pos_right hp).mpr (by exact_mod_cast hm)

theorem pyRound_le_of_le_int {x : ℚ} {n : ℕ} {m : ℤ} (h : x * 10 ^ n ≤ (m : ℚ)) :
    pyRound x n ≤ (m : ℚ) / 10 ^ n := by
  unfold pyRound
  have hp : (0:ℚ) < 10 ^ n := by positivity
  have hm := roundHalfEven_mono h
  rw [roundHalfEven_intCast] at hm
  exact (div_le_div_iff_of_pos_right hp).mpr (by exact_mod_cast hm)

theorem int_le_pyRound_of_le {x : ℚ} {n : ℕ} {m : ℤ} (h : (m : ℚ) ≤ x * 10 ^ n) :
    (m : ℚ) / 10 ^ n ≤ pyRound x n := by
  unfold pyRound
  have hp : (0:ℚ) < 10 ^ n := by positivity
  have hm := roundHalfEven_mono h
  rw [roundHalfEven_intCast] at hm
  exact (div_le_div_iff_of_pos_right hp).mpr (by exact_mod_cast hm)

theorem pyRound_nonneg {x : ℚ} {n : ℕ} (h : 0 ≤ x) : 0 ≤ pyRound x n := by
  have h0 : ((0 : ℤ) : ℚ) ≤ x * 10 ^ n := by positivity
  have := int_le_pyRound_of_le h0
  simpa using this

theorem cap_sad : "sad".capitalize = "Sad" := rfl

theorem cap_fear : "fear".capitalize = "Fear" := rfl

theorem cap_disgust : "disgust".capitalize = "Disgust" := rfl

theorem cap_angry : "angry".capitalize = "Angry" := rfl

theorem cap_happy : "happy".capitalize = "Happy" := rfl

theorem cap_calm : "calm".capitalize = "Calm" := rfl

theorem cap_neutral : "neutral".capitalize = "Neutral" := rfl

theorem cap_surprise : "surprise".capitalize = "Surprise" := rfl

theorem getD_nonneg (d : EmotionData) (hd : ∀ p ∈ d, 0 ≤ p.2) (k : String) :
    0 ≤ getD d k := by
  induction d with
  | nil => simp [getD]
  | cons p rest ih =>
    simp only [getD]
    split_ifs
    · exact hd p (by simp)
    · exact ih fun q hq => hd q (by simp [hq])

theorem four_getD_le_valuesSum (d : EmotionData) (hd : ∀ p ∈ d, 0 ≤ p.2) :
    getD d "sadness" + getD d "fear" + getD d "anger" + getD d "disgust" ≤
      valuesSum d := by
  induction d with
  | nil => simp [getD, valuesSum]
  | cons p rest ih =>
    have hv : 0 ≤ p.2 := hd p (by simp)
    have hrest : ∀ q ∈ rest, 0 ≤ q.2 := fun q hq => hd q (by simp [hq])
    have ihr := ih hrest
    have h1 := getD_nonneg rest hrest "sadness"
    have h2 := getD_nonneg rest hrest "fear"
    have h3 := getD_nonneg rest hrest "anger"
    have h4 := getD_nonneg rest hrest "disgust"
    simp only [getD, valuesSum]
    split_ifs with e1 e2 e3 e4 <;> first | linarith | (exfalso; simp_all)


theorem valuesSum_nonneg (d : EmotionData) (hd : ∀ p ∈ d, 0 ≤ p.2) :
    0 ≤ valuesSum d := by
  induction d with
  | nil => simp [valuesSum]
  | cons p rest ih =>
    have := hd p (by simp)
    have := ih fun q hq => hd q (by simp [hq])
    simp only [valuesSum]
    linarith

theorem getD_eq_zero_of_not_hasKey (d : EmotionData) (k : String)
    (h : hasKey d k = false) : getD d k = 0 := by
  induction d with
  | nil => simp [getD]
  | cons p rest ih =>
    simp only [getD]
    simp only [hasKey] at h
    split_ifs with he
    · simp [he] at h
    · exact ih (by simpa [he] using h)

theorem ite_hasKey_contrib (d : EmotionData) (k : String) (T w : ℚ) :
    (if hasKey d k then getD d k / T * w * 10 else 0) =
      getD d k / T * w * 10 := by
  by_cases h : hasKey d k
  · rw [if_pos h]
  · rw [if_neg h, getD_eq_zero_of_not_hasKey d k (by simpa using h)]
    simp

theorem calculate_risk_score_textVector (j sa an fe su di ne : ℚ)
    (h : j + sa + an + fe + su + di + ne ≠ 0) :
    TextEmotion.calculate_risk_score (textVector j sa an fe su di ne) =
      pyRound ((sa * (45/100) + fe * (30/100) + an * (20/100) + di * (15/100)) * 10 /
        (j + sa + an + fe + su + di + ne)) 2 := by
  simp only [TextEmotion.calculate_risk_score, TextEmotion.weights, textVector]
  simp [getD, hasKey, valuesSum]
  split_ifs with h0
  · exact absurd (show j + sa + an + fe + su + di + ne = 0 by linarith) h
  · congr 1
    field_simp
    ring

theorem calculate_wellness_score_textVector (j sa an fe su di ne : ℚ)
    (h : j + sa + an + fe + su + di + ne ≠ 0) :
    TextEmotion.calculate_wellness_score (textVector j sa an fe su di ne) =
      pyRound ((j + su + (1/2) * ne) * 10 / (j + sa + an + fe + su + di + ne)) 2 := by
  simp only [TextEmotion.calculate_wellness_score, TextEmotion.positive_emotions,
    TextEmotion.negative_emotions, textVector]
  simp [getD]
  split_ifs with h0
  · exact absurd (show j + sa + an + fe + su + di + ne = 0 by linarith) h
  · congr 1
    rw [div_mul_eq_mul_div]
    congr 1 <;> ring

theorem div_self_add_le_one {a b : ℚ} (h : 0 < a + b) (hb : 0 ≤ b) :
    a / (a + b) ≤ 1 := by
  rw [div_le_one h]
  linarith


theorem getLast?_append_singleton {α : Type} (l : List α) (a : α) :
    (l ++ [a]).getLast? = some a := by
  rw [List.getLast?_append_cons]
  rfl

/-! ## Claims -/

/-- C3: the tier classifiers are the exact threshold lookups of the spec's
tables on the 0-10 scale: a risk score of exactly 7.0 maps to "Critical Risk"
and 6.99 to "High Risk", with 5.0, 3.0 and 1.0 the remaining closed lower
boundaries of High/Moderate/Low Risk; a wellness score of exactly 8.0 maps to
"Excellent", with 6.0, 4.0 and 2.0 the closed lower boundaries of
Good/Fair/Poor. -/
theorem risk_and_wellness_tier_boundaries :
    (TextEmotion.get_risk_level 7).1 = "Critical Risk" ∧
    (TextEmotion.get_risk_level (699/100)).1 = "High Risk" ∧
    (TextEmotion.get_risk_level 5).1 = "High Risk" ∧
    (TextEmotion.get_risk_level (499/100)).1 = "Moderate Risk" ∧
    (TextEmotion.get_risk_level 3).1 = "Moderate Risk" ∧
    (TextEmotion.get_risk_level (299/100)).1 = "Low Risk" ∧
    (TextEmotion.get_risk_level 1).1 = "Low Risk" ∧
    (TextEmotion.get_risk_level (99/100)).1 = "Minimal Risk" ∧
    (TextEmotion.get_wellness_level 8).1 = "Excellent" ∧
    (TextEmotion.get_wellness_level (799/100)).1 = "Good" ∧
    (TextEmotion.get_wellness_level 6).1 = "Good" ∧
    (TextEmotion.get_wellness_level (599/100)).1 = "Fair" ∧
    (TextEmotion.get_wellness_level 4).1 = "Fair" ∧
    (TextEmotion.get_wellness_level (399/100)).1 = "Poor" ∧
    (TextEmotion.get_wellness_level 2).1 = "Poor" ∧
    (TextEmotion.get_wellness_level (199/100)).1 = "Critical" := by
  norm_num [TextEmotion.get_risk_level, TextEmotion.get_wellness_level]

/-- C7 counterexample: on the empty mapping the count-aggregate risk scorer of
the text session module returns `0.0`, not the claimed midpoint `5.0` (the
frame-based risk scorer likewise returns `0.0` before any sample). -/
theorem empty_input_risk_not_midpoint :
    TextEmotion.calculate_risk_score [] = 0 ∧
    TextEmotion.calculate_risk_score [] ≠ 5 ∧
    Realtime.calculate_risk_score [] 0 = 0 ∧
    Realtime.calculate_risk_score [] 0 ≠ 5 := by
  norm_num [TextEmotion.calculate_risk_score, Realtime.calculate_risk_score, valuesSum]

/-- C7 amended: on empty or all-zero input the wellness scorers return the
midpoint default (5.0 on the 0-10 scale, 50 on the 0-100 scale) without
raising, while the risk scorers return `0.0` (not the midpoint). -/
theorem empty_input_defaults :
    TextEmotion.calculate_wellness_score [] = 5 ∧
    TextEmotion.calculate_wellness_score (textVector 0 0 0 0 0 0 0) = 5 ∧
    TextEmotion.calculate_risk_score [] = 0 ∧
    TextEmotion.calculate_risk_score (textVector 0 0 0 0 0 0 0) = 0 ∧
    Realtime.calculate_wellness_score [] 0 = 5 ∧
    Realtime.calculate_wellness_score (frameCounts 0 0 0 0 0 0 0) 10 = 5 ∧
    Realtime.calculate_risk_score [] 0 = 0 ∧
    Realtime.calculate_risk_score (frameCounts 0 0 0 0 0 0 0) 10 = 0 ∧
    Voice.calculate_wellness_score [] "" = 50 ∧
    Voice.calculate_risk_score [] "" = 0 ∧
    TextAnalysis.wellness_score [] = 50 ∧
    TextAnalysis.risk_score [] = 0 := by
  norm_num [TextEmotion.calculate_wellness_score, TextEmotion.calculate_risk_score,
    Realtime.calculate_wellness_score, Realtime.calculate_risk_score,
    Voice.calculate_wellness_score, Voice.calculate_risk_score,
    TextAnalysis.wellness_score, TextAnalysis.risk_score,
    TextEmotion.positive_emotions, TextEmotion.negative_emotions,
    Realtime.positive_emotions, Realtime.negative_emotions,
    Voice.positive_emotions, Voice.negative_emotions, Voice.risk_emotions,
    TextAnalysis.negative_weights,
    textVector, frameCounts, getD, hasKey, valuesSum,
    pyRound, roundHalfEven, ratFloor_eq_intFloor]

/-- C5 counterexample: for V = {sadness:60, fear:20, anger:10, joy:5,
neutral:5} the count/proportion-based risk scorer computes 3.5, which does not
exceed the "High Risk" threshold 5.0; it classifies as "Moderate Risk". -/
theorem scenario_b_risk_counterexample :
    TextEmotion.calculate_risk_score
      [("sadness", 60), ("fear", 20), ("anger", 10), ("joy", 5), ("neutral", 5)] = 7/2 ∧
    ¬ (TextEmotion.calculate_risk_score
      [("sadness", 60), ("fear", 20), ("anger", 10), ("joy", 5), ("neutral", 5)] > 5) ∧
    (TextEmotion.get_risk_level (7/2)).1 = "Moderate Risk" := by
  have h : TextEmotion.calculate_risk_score
      [("sadness", 60), ("fear", 20), ("anger", 10), ("joy", 5), ("neutral", 5)] = 7/2 := by
    simp [TextEmotion.calculate_risk_score, TextEmotion.weights, getD, hasKey, valuesSum]
    norm_num [pyRound, roundHalfEven, ratFloor_eq_intFloor]
  refine ⟨h, ?_, ?_⟩
  · rw [h]; norm_num
  · norm_num [TextEmotion.get_risk_level]

/-- C5 amended: for V = {sadness:60, fear:20, anger:10, joy:5, neutral:5} the
dominant emotion is sadness and the risk score is 3.5, which classifies as
"Moderate Risk" (it exceeds the Moderate threshold 3.0 but not the High Risk
threshold 5.0); the facial insight generator, given the corresponding dominant
label "Sad", includes the sadness-support insight. -/
theorem scenario_b_amended :
    TextEmotion.maxByValue
      [("sadness", 60), ("fear", 20), ("anger", 10), ("joy", 5), ("neutral", 5)] =
        some ("sadness", 60) ∧
    TextEmotion.calculate_risk_score
      [("sadness", 60), ("fear", 20), ("anger", 10), ("joy", 5), ("neutral", 5)] = 7/2 ∧
    (TextEmotion.get_risk_level (7/2)).1 = "Moderate Risk" ∧
    ((7 : ℚ)/2 ≥ 3 ∧ ¬ ((7 : ℚ)/2 ≥ 5)) ∧
    Facial.signs_of_sadness_insight ∈
      Facial.generate_facial_insights
        [("Sad", 60), ("Fearful", 20), ("Angry", 10), ("Happy", 5), ("Neutral", 5)]
        35 "Sad" := by
  refine ⟨by norm_num [TextEmotion.maxByValue, TextEmotion.maxByValueAux], ?_, ?_, ?_, ?_⟩
  · simp [TextEmotion.calculate_risk_score, TextEmotion.weights, getD, hasKey, valuesSum]
    norm_num [pyRound, roundHalfEven, ratFloor_eq_intFloor]
  · norm_num [TextEmotion.get_risk_level]
  · norm_num
  · simp [Facial.generate_facial_insights, getD]

/-- C1 counterexample: the frame-based and voice risk scorers do not use the
claimed weight table.  A session whose single frame is Fearful scores 4.0
(weight 0.40), while the claimed table (fear = 0.30) gives 3.0; a voice sample
that is pure Sad (100) scores 100 (weight 1.5, clamped), while the claimed
table (sadness = 0.45) gives 45. -/
theorem risk_weight_table_counterexample :
    Realtime.calculate_risk_score [("Fearful", 1)] 1 = 4 ∧
    claimedFrameRisk [("Fearful", 1)] 1 = 3 ∧
    Voice.calculate_risk_score [("Sad", 100)] "Sad" = 100 ∧
    claimedVoiceRisk [("Sad", 100)] = 45 ∧
    (4 : ℚ) ≠ 3 ∧ (100 : ℚ) ≠ 45 := by
  refine ⟨?_, ?_, ?_, ?_, by norm_num, by norm_num⟩
  · simp [Realtime.calculate_risk_score, Realtime.risk_weights, getD, valuesSum,
      List.countP_cons, List.countP_nil]
    norm_num [pyRound, roundHalfEven, ratFloor_eq_intFloor]
  · simp [claimedFrameRisk, getD, valuesSum, List.countP_cons, List.countP_nil]
    norm_num [pyRound, roundHalfEven, ratFloor_eq_intFloor]
  · simp [Voice.calculate_risk_score, Voice.risk_emotions, getD,
      cap_sad, cap_fear, cap_disgust, cap_angry]
    norm_num [pyRound, roundHalfEven, ratFloor_eq_intFloor]
  · simp [claimedVoiceRisk, getD, cap_sad, cap_fear, cap_disgust, cap_angry]
    norm_num [pyRound, roundHalfEven, ratFloor_eq_intFloor]

/-- C1 amended: the text single-sample and count-aggregate risk scorers use
the fixed table sadness = 0.45, fear = 0.30, anger = 0.20, disgust = 0.15;
the frame-based scorer instead uses Sad = 0.45, Fearful = 0.40, Angry = 0.30,
Disgusted = 0.20, and the voice scorer uses Sad = 1.5, Fear = 1.3,
Angry = 1.2, Disgust = 1.1; in each scorer, labels outside its own table
contribute zero directly.  Shown by probing each scorer with pure
single-label inputs. -/
theorem risk_weight_tables_amended :
    (∀ n : ℚ, 0 < n →
      TextEmotion.calculate_risk_score [("sadness", n)] = 9/2 ∧
      TextEmotion.calculate_risk_score [("fear", n)] = 3 ∧
      TextEmotion.calculate_risk_score [("anger", n)] = 2 ∧
      TextEmotion.calculate_risk_score [("disgust", n)] = 3/2 ∧
      TextEmotion.calculate_risk_score [("joy", n)] = 0) ∧
    (∀ p : ℚ, 0 ≤ p → p ≤ 1 →
      TextAnalysis.risk_score [("sadness", p)] = p * (45/100) * 100 ∧
      TextAnalysis.risk_score [("fear", p)] = p * (30/100) * 100 ∧
      TextAnalysis.risk_score [("anger", p)] = p * (20/100) * 100 ∧
      TextAnalysis.risk_score [("disgust", p)] = p * (15/100) * 100 ∧
      TextAnalysis.risk_score [("joy", p)] = 0) ∧
    (∀ n : ℚ, 0 < n →
      Realtime.calculate_risk_score [("Sad", n)] n = 9/2 ∧
      Realtime.calculate_risk_score [("Fearful", n)] n = 4 ∧
      Realtime.calculate_risk_score [("Angry", n)] n = 3 ∧
      Realtime.calculate_risk_score [("Disgusted", n)] n = 2 ∧
      Realtime.calculate_risk_score [("Happy", n)] n = 0) ∧
    (∀ x : ℚ, 0 ≤ x →
      Voice.calculate_risk_score [("Sad", x)] "" = pyRound (min 100 ((3/2) * x)) 1 ∧
      Voice.calculate_risk_score [("Fear", x)] "" = pyRound (min 100 ((13/10) * x)) 1 ∧
      Voice.calculate_risk_score [("Angry", x)] "" = pyRound (min 100 ((6/5) * x)) 1 ∧
      Voice.calculate_risk_score [("Disgust", x)] "" = pyRound (min 100 ((11/10) * x)) 1 ∧
      Voice.calculate_risk_score [("Happy", x)] "" = 0) := by
  refine ⟨?_, ?_, ?_, ?_⟩
  · intro n hn
    have hne : n ≠ 0 := ne_of_gt hn
    refine ⟨?_, ?_, ?_, ?_, ?_⟩ <;>
      · simp [TextEmotion.calculate_risk_score, TextEmotion.weights, getD, hasKey,
          valuesSum, hne]
        norm_num [pyRound, roundHalfEven, ratFloor_eq_intFloor]
  · intro p hp0 hp1
    refine ⟨?_, ?_, ?_, ?_, ?_⟩ <;>
      · simp [TextAnalysis.risk_score, TextAnalysis.negative_weights]
        try linarith
  · intro n hn
    have hne : n ≠ 0 := ne_of_gt hn
    refine ⟨?_, ?_, ?_, ?_, ?_⟩ <;>
      · simp [Realtime.calculate_risk_score, Realtime.risk_weights, getD, valuesSum,
          List.countP_cons, List.countP_nil, hne]
        norm_num [pyRound, roundHalfEven, ratFloor_eq_intFloor]
  · intro x hx
    refine ⟨?_, ?_, ?_, ?_, ?_⟩ <;>
      · simp [Voice.calculate_risk_score, Voice.risk_emotions, getD,
          cap_sad, cap_fear, cap_disgust, cap_angry]
        try first
          | (rw [max_eq_right (by positivity)]; ring_nf)
          | norm_num [pyRound, roundHalfEven, ratFloor_eq_intFloor]

/-- Witness for `risk_weight_tables_amended` at concrete inputs. -/
theorem risk_weight_tables_amended_witness :
    TextEmotion.calculate_risk_score [("sadness", 1)] = 9/2 ∧
    TextAnalysis.risk_score [("sadness", 1/2)] = (1/2) * (45/100) * 100 ∧
    Realtime.calculate_risk_score [("Fearful", 2)] 2 = 4 ∧
    Voice.calculate_risk_score [("Sad", 10)] "" = pyRound (min 100 ((3/2) * 10)) 1 :=
  ⟨(risk_weight_tables_amended.1 1 (by norm_num)).1,
   (risk_weight_tables_amended.2.1 (1/2) (by norm_num) (by norm_num)).1,
   (risk_weight_tables_amended.2.2.1 2 (by norm_num)).2.1,
   (risk_weight_tables_amended.2.2.2 10 (by norm_num)).1⟩

/-- C2 counterexample: the frame-based and voice wellness scorers do not use
the claimed `(positive + 0.5*neutral) / (positive + negative + neutral)`
formula.  A session whose single frame is Neutral scores a wellness of 10.0
(Neutral counted as fully positive), while the claimed formula gives 5.0; a
pure-Neutral voice sample likewise scores 100 instead of 50. -/
theorem wellness_formula_counterexample :
    Realtime.calculate_wellness_score [("Neutral", 1)] 1 = 10 ∧
    claimedFrameWellness [("Neutral", 1)] 1 = 5 ∧
    Voice.calculate_wellness_score [("Neutral", 100)] "" = 100 ∧
    (10 : ℚ) ≠ 5 := by
  refine ⟨?_, ?_, ?_, by norm_num⟩
  · simp [Realtime.calculate_wellness_score, Realtime.positive_emotions,
      Realtime.negative_emotions, getD]
    norm_num [pyRound, roundHalfEven, ratFloor_eq_intFloor]
  · simp [claimedFrameWellness, getD]
    norm_num [pyRound, roundHalfEven, ratFloor_eq_intFloor]
  · simp [Voice.calculate_wellness_score, Voice.positive_emotions,
      Voice.negative_emotions, getD, cap_happy, cap_calm, cap_neutral,
      cap_surprise, cap_sad, cap_angry, cap_fear, cap_disgust]
    norm_num [pyRound, roundHalfEven, ratFloor_eq_intFloor]

/-- C2 amended: the claimed wellness formula
`((positive + 0.5 * neutral) / (positive + negative + neutral)) * scale_max`
holds for the two text wellness scorers, with POSITIVE = {joy, surprise},
NEGATIVE = {sadness, anger, fear, disgust}, NEUTRAL = {neutral}; the
frame-based scorer instead counts Neutral as fully positive and returns
`positive / (positive + negative) * 10`, and the voice scorer counts calm and
neutral as fully positive and returns `positive / (positive + negative) * 100`. -/
theorem wellness_formulas_amended :
    (∀ j sa an fe su di ne : ℚ,
      (j + su) + (an + sa + fe + di) + ne ≠ 0 →
      TextEmotion.calculate_wellness_score (textVector j sa an fe su di ne) =
        pyRound ((((j + su) + (1/2) * ne) /
          ((j + su) + (an + sa + fe + di) + ne)) * 10) 2) ∧
    (∀ j sa an fe su di ne : ℚ,
      (j + su) + (sa + an + fe + di) + ne > 0 →
      TextAnalysis.wellness_score (textVector j sa an fe su di ne) =
        (((j + su) + (1/2) * ne) / ((j + su) + (sa + an + fe + di) + ne)) * 100) ∧
    (∀ an di fe h ne sa su t : ℚ, t ≠ 0 →
      (h + ne + su) + (sa + an + fe + di) > 0 →
      Realtime.calculate_wellness_score (frameCounts an di fe h ne sa su) t =
        pyRound (((h + ne + su) / ((h + ne + su) + (sa + an + fe + di))) * 10) 1) ∧
    (∀ an c di fe h ne sa su : ℚ,
      (h + c + ne + su) + (sa + an + fe + di) > 0 →
      Voice.calculate_wellness_score (voiceVector an c di fe h ne sa su) "" =
        pyRound (((h + c + ne + su) /
          ((h + c + ne + su) + (sa + an + fe + di))) * 100) 1) := by
  refine ⟨?_, ?_, ?_, ?_⟩
  · intro j sa an fe su di ne h
    simp only [TextEmotion.calculate_wellness_score, TextEmotion.positive_emotions,
      TextEmotion.negative_emotions, textVector]
    simp [getD]
    rw [if_neg (by intro hc; exact h (by linarith))]
    congr 1
    ring
  · intro j sa an fe su di ne h
    simp only [TextAnalysis.wellness_score, textVector]
    simp [getD]
    rw [if_pos (by linarith)]
    ring
  · intro an di fe h ne sa su t ht hpos
    simp only [Realtime.calculate_wellness_score, Realtime.positive_emotions,
      Realtime.negative_emotions, frameCounts]
    simp [getD, ht]
    rw [if_pos (by linarith)]
    congr 1
    ring
  · intro an c di fe h ne sa su hpos
    simp only [Voice.calculate_wellness_score, Voice.positive_emotions,
      Voice.negative_emotions, voiceVector]
    simp [getD, cap_happy, cap_calm, cap_neutral, cap_surprise, cap_sad,
      cap_angry, cap_fear, cap_disgust]
    rw [if_pos (by linarith)]
    congr 1
    ring

/-- Witness for `wellness_formulas_amended` at concrete inputs. -/
theorem wellness_formulas_amended_witness :
    TextEmotion.calculate_wellness_score (textVector 1 1 1 1 1 1 1) =
      pyRound ((((1 + 1) + (1/2) * 1) / ((1 + 1) + (1 + 1 + 1 + 1) + 1)) * 10) 2 ∧
    TextAnalysis.wellness_score (textVector 1 1 1 1 1 1 1) =
      (((1 + 1) + (1/2) * 1) / ((1 + 1) + (1 + 1 + 1 + 1) + 1)) * 100 ∧
    Realtime.calculate_wellness_score (frameCounts 1 1 1 1 1 1 1) 7 =
      pyRound (((1 + 1 + 1) / ((1 + 1 + 1) + (1 + 1 + 1 + 1))) * 10) 1 ∧
    Voice.calculate_wellness_score (voiceVector 1 1 1 1 1 1 1 1) "" =
      pyRound (((1 + 1 + 1 + 1) / ((1 + 1 + 1 + 1) + (1 + 1 + 1 + 1))) * 100) 1 :=
  ⟨wellness_formulas_amended.1 1 1 1 1 1 1 1 (by norm_num),
   wellness_formulas_amended.2.1 1 1 1 1 1 1 1 (by norm_num),
   wellness_formulas_amended.2.2.1 1 1 1 1 1 1 1 7 (by norm_num) (by norm_num),
   wellness_formulas_amended.2.2.2 1 1 1 1 1 1 1 1 (by norm_num)⟩

/-- C4 counterexample: in a 9-frame session with Sad dominant in 3 frames and
Fearful dominant in 3 (both above the 20% threshold), the frame-based scorer
returns 7.8, while adding a bonus of `0.5 * scale_max / 10 = 0.5` on the
final 0-10 scale (as the claim states) would return 3.3: the bonus is added to
the unscaled accumulator and is worth 5.0 on the 0-10 scale, not 0.5. -/
theorem escalation_bonus_counterexample :
    Realtime.calculate_risk_score [("Sad", 3), ("Fearful", 3), ("Happy", 3)] 9 = 39/5 ∧
    claimedFrameRiskSpecBonus [("Sad", 3), ("Fearful", 3), ("Happy", 3)] 9 = 33/10 ∧
    (39 : ℚ)/5 ≠ 33/10 := by
  refine ⟨?_, ?_, by norm_num⟩
  · simp [Realtime.calculate_risk_score, Realtime.risk_weights, getD, valuesSum,
      List.countP_cons, List.countP_nil]
    norm_num [pyRound, roundHalfEven, ratFloor_eq_intFloor]
  · simp [claimedFrameRiskSpecBonus, Realtime.risk_weights, getD, valuesSum,
      List.countP_cons, List.countP_nil]
    norm_num [pyRound, roundHalfEven, ratFloor_eq_intFloor]

/-- C4 amended: in the frame-based risk scorer, whenever two or more of
{Sad, Fearful, Angry, Disgusted} each individually exceed the 20%-of-samples
threshold, a fixed bonus of `0.5` is added to the *unscaled* risk accumulator
exactly once — worth `5.0 = 0.5 * scale_max` on the final 0-10 scale — before
the scaling by 10 and the upper clamp at `scale_max`; no bonus is applied when
fewer than two exceed the threshold. -/
theorem escalation_bonus_amended :
    ∀ an di fe h ne sa su t : ℚ, t ≠ 0 →
    Realtime.calculate_risk_score (frameCounts an di fe h ne sa su) t =
      pyRound (min 10
        (((if sa / t * 100 > 20 then sa / t * 100 / 100 * (45/100) else 0) +
          (if fe / t * 100 > 20 then fe / t * 100 / 100 * (40/100) else 0) +
          (if an / t * 100 > 20 then an / t * 100 / 100 * (30/100) else 0) +
          (if di / t * 100 > 20 then di / t * 100 / 100 * (20/100) else 0) +
          (if 2 ≤ (((if sa / t * 100 > 20 then 1 else 0) +
                    (if fe / t * 100 > 20 then 1 else 0) +
                    (if an / t * 100 > 20 then 1 else 0) +
                    (if di / t * 100 > 20 then 1 else 0)) : ℕ) then (1/2 : ℚ)
           else 0)) * 10)) 1 := by
  intro an di fe h ne sa su t ht
  simp only [Realtime.calculate_risk_score, Realtime.risk_weights, frameCounts]
  simp [getD, ht, List.countP_cons, List.countP_nil]
  congr 1
  congr 1
  split_ifs <;> ring

/-- Witness for `escalation_bonus_amended` at a concrete input. -/
theorem escalation_bonus_amended_witness :
    Realtime.calculate_risk_score (frameCounts 0 0 3 3 0 3 0) 9 =
      pyRound (min 10
        ((((if (3:ℚ) / 9 * 100 > 20 then (3:ℚ) / 9 * 100 / 100 * (45/100) else 0) +
          (if (3:ℚ) / 9 * 100 > 20 then (3:ℚ) / 9 * 100 / 100 * (40/100) else 0) +
          (if (0:ℚ) / 9 * 100 > 20 then (0:ℚ) / 9 * 100 / 100 * (30/100) else 0) +
          (if (0:ℚ) / 9 * 100 > 20 then (0:ℚ) / 9 * 100 / 100 * (20/100) else 0) +
          (if 2 ≤ (((if (3:ℚ) / 9 * 100 > 20 then 1 else 0) +
                    (if (3:ℚ) / 9 * 100 > 20 then 1 else 0) +
                    (if (0:ℚ) / 9 * 100 > 20 then 1 else 0) +
                    (if (0:ℚ) / 9 * 100 > 20 then 1 else 0)) : ℕ) then (1/2 : ℚ)
           else 0))) * 10)) 1 :=
  escalation_bonus_amended 0 0 3 3 0 3 0 9 (by norm_num)

/-- C6: for every emotion vector with non-negative components summing to 100,
every wellness and risk scorer of the program returns a value in
`[0, scale_max]` (scale_max = 10 for the text-session and frame-based
scorers, 100 for the single-sample text and voice scorers; the frame-based
scorers are applied with `total_frames = 100`, the number of samples). -/
theorem score_bounds :
    (∀ j sa an fe su di ne : ℚ, 0 ≤ j → 0 ≤ sa → 0 ≤ an → 0 ≤ fe → 0 ≤ su →
      0 ≤ di → 0 ≤ ne → j + sa + an + fe + su + di + ne = 100 →
      (0 ≤ TextEmotion.calculate_wellness_score (textVector j sa an fe su di ne) ∧
        TextEmotion.calculate_wellness_score (textVector j sa an fe su di ne) ≤ 10) ∧
      (0 ≤ TextEmotion.calculate_risk_score (textVector j sa an fe su di ne) ∧
        TextEmotion.calculate_risk_score (textVector j sa an fe su di ne) ≤ 10)) ∧
    (∀ j sa an fe su di ne : ℚ, 0 ≤ j → 0 ≤ sa → 0 ≤ an → 0 ≤ fe → 0 ≤ su →
      0 ≤ di → 0 ≤ ne → j + sa + an + fe + su + di + ne = 100 →
      (0 ≤ TextAnalysis.wellness_score (textVector j sa an fe su di ne) ∧
        TextAnalysis.wellness_score (textVector j sa an fe su di ne) ≤ 100) ∧
      (0 ≤ TextAnalysis.risk_score (textVector j sa an fe su di ne) ∧
        TextAnalysis.risk_score (textVector j sa an fe su di ne) ≤ 100)) ∧
    (∀ an di fe h ne sa su : ℚ, 0 ≤ an → 0 ≤ di → 0 ≤ fe → 0 ≤ h → 0 ≤ ne →
      0 ≤ sa → 0 ≤ su → an + di + fe + h + ne + sa + su = 100 →
      (0 ≤ Realtime.calculate_wellness_score (frameCounts an di fe h ne sa su) 100 ∧
        Realtime.calculate_wellness_score (frameCounts an di fe h ne sa su) 100 ≤ 10) ∧
      (0 ≤ Realtime.calculate_risk_score (frameCounts an di fe h ne sa su) 100 ∧
        Realtime.calculate_risk_score (frameCounts an di fe h ne sa su) 100 ≤ 10)) ∧
    (∀ an c di fe h ne sa su : ℚ, 0 ≤ an → 0 ≤ c → 0 ≤ di → 0 ≤ fe → 0 ≤ h →
      0 ≤ ne → 0 ≤ sa → 0 ≤ su → an + c + di + fe + h + ne + sa + su = 100 →
      (0 ≤ Voice.calculate_wellness_score (voiceVector an c di fe h ne sa su) "" ∧
        Voice.calculate_wellness_score (voiceVector an c di fe h ne sa su) "" ≤ 100) ∧
      (0 ≤ Voice.calculate_risk_score (voiceVector an c di fe h ne sa su) "" ∧
        Voice.calculate_risk_score (voiceVector an c di fe h ne sa su) "" ≤ 100)) := by
  refine ⟨?_, ?_, ?_, ?_⟩
  · intro j sa an fe su di ne hj hsa han hfe hsu hdi hne hsum
    have hne0 : j + sa + an + fe + su + di + ne ≠ 0 := by rw [hsum]; norm_num
    have hD : (0:ℚ) < j + sa + an + fe + su + di + ne := by rw [hsum]; norm_num
    rw [calculate_wellness_score_textVector j sa an fe su di ne hne0,
      calculate_risk_score_textVector j sa an fe su di ne hne0]
    refine ⟨⟨pyRound_nonneg (div_nonneg (by linarith) hD.le), ?_⟩,
      ⟨pyRound_nonneg (div_nonneg (by linarith) hD.le), ?_⟩⟩
    · refine le_trans (pyRound_le_of_le_int (m := 1000) ?_) (by norm_num)
      rw [div_mul_eq_mul_div, div_le_iff hD]
      linarith
    · refine le_trans (pyRound_le_of_le_int (m := 1000) ?_) (by norm_num)
      rw [div_mul_eq_mul_div, div_le_iff hD]
      linarith
  · intro j sa an fe su di ne hj hsa han hfe hsu hdi hne hsum
    constructor
    · simp only [TextAnalysis.wellness_score, textVector]
      simp [getD]
      split_ifs with hpos
      · constructor
        · exact mul_nonneg (div_nonneg (by linarith) (le_of_lt hpos)) (by norm_num)
        · rw [div_mul_eq_mul_div, div_le_iff hpos]
          linarith
      · norm_num
    · simp only [TextAnalysis.risk_score, TextAnalysis.negative_weights, textVector]
      simp
      first
        | exact ⟨le_min (by norm_num) (by ring_nf; linarith), min_le_left _ _⟩
        | (constructor <;> (ring_nf; linarith))
        | (ring_nf; linarith)
  · intro an di fe h ne sa su han hdi hfe hh hne hsa hsu hsum
    constructor
    · simp only [Realtime.calculate_wellness_score, Realtime.positive_emotions,
        Realtime.negative_emotions, frameCounts]
      simp [getD]
      split_ifs with hpos
      · refine ⟨pyRound_nonneg
          (mul_nonneg (div_nonneg (by linarith) (le_of_lt hpos)) (by norm_num)), ?_⟩
        refine le_trans (pyRound_le_of_le_int (m := 100) ?_) (by norm_num)
        rw [div_mul_eq_mul_div, div_mul_eq_mul_div, div_le_iff hpos]
        push_cast
        linarith
      · refine ⟨pyRound_nonneg (by norm_num), ?_⟩
        refine le_trans (pyRound_le_of_le_int (m := 100) (by norm_num)) (by norm_num)
    · simp only [Realtime.calculate_risk_score, Realtime.risk_weights, frameCounts]
      simp [getD, List.countP_cons, List.countP_nil]
      split_ifs <;>
        exact ⟨pyRound_nonneg (le_min (by norm_num) (by ring_nf; linarith)),
          le_trans (pyRound_le_of_le_int (m := 100)
            (le_trans (mul_le_mul_of_nonneg_right (min_le_left _ _) (by norm_num))
              (by norm_num))) (by norm_num)⟩
  · intro an c di fe h ne sa su han hc hdi hfe hh hne hsa hsu hsum
    constructor
    · simp only [Voice.calculate_wellness_score, Voice.positive_emotions,
        Voice.negative_emotions, voiceVector]
      simp [getD, cap_happy, cap_calm, cap_neutral, cap_surprise, cap_sad,
        cap_angry, cap_fear, cap_disgust]
      split_ifs with hpos
      · refine ⟨pyRound_nonneg
          (mul_nonneg (div_nonneg (by linarith) (le_of_lt hpos)) (by norm_num)), ?_⟩
        refine le_trans (pyRound_le_of_le_int (m := 1000) ?_) (by norm_num)
        rw [div_mul_eq_mul_div, div_mul_eq_mul_div, div_le_iff hpos]
        push_cast
        linarith
      · refine ⟨pyRound_nonneg (by norm_num), ?_⟩
        refine le_trans (pyRound_le_of_le_int (m := 1000) (by norm_num)) (by norm_num)
    · simp only [Voice.calculate_risk_score, Voice.risk_emotions, voiceVector]
      simp [getD, cap_sad, cap_angry, cap_fear, cap_disgust]
      refine ⟨pyRound_nonneg (le_min (by norm_num) (le_max_left _ _)), ?_⟩
      refine le_trans (pyRound_le_of_le_int (m := 1000)
        (le_trans (mul_le_mul_of_nonneg_right (min_le_left _ _) (by norm_num))
          (by norm_num))) (by norm_num)

/-- Witness for `score_bounds` at a concrete vector summing to 100. -/
theorem score_bounds_witness :
    (0 ≤ TextEmotion.calculate_wellness_score (textVector 40 30 10 10 5 0 5) ∧
      TextEmotion.calculate_wellness_score (textVector 40 30 10 10 5 0 5) ≤ 10) ∧
    (0 ≤ Voice.calculate_risk_score (voiceVector 10 10 10 10 20 20 10 10) "" ∧
      Voice.calculate_risk_score (voiceVector 10 10 10 10 20 20 10 10) "" ≤ 100) :=
  ⟨(score_bounds.1 40 30 10 10 5 0 5 (by norm_num) (by norm_num) (by norm_num)
      (by norm_num) (by norm_num) (by norm_num) (by norm_num) (by norm_num)).1,
   (score_bounds.2.2.2 10 10 10 10 20 20 10 10 (by norm_num) (by norm_num)
      (by norm_num) (by norm_num) (by norm_num) (by norm_num) (by norm_num)
      (by norm_num) (by norm_num)).2⟩

/-- C8 counterexample: in the voice insight generator, the elevated-concern
insight is not always the last element: for emotions {Happy: 80}, tempo 100
and risk score 80 (> 70), the positive-vocal-indicators insight is appended
after it. -/
theorem voice_elevated_insight_not_last :
    Voice.generate_voice_insights [("Happy", 80)] 100 0 80 =
      [Voice.elevated_concern_voice_insight, Voice.positive_vocal_insight] ∧
    (80 : ℚ) > 70 ∧
    Voice.elevated_concern_voice_insight ∈
      Voice.generate_voice_insights [("Happy", 80)] 100 0 80 ∧
    (Voice.generate_voice_insights [("Happy", 80)] 100 0 80).getLast? ≠
      some Voice.elevated_concern_voice_insight := by
  have h : Voice.generate_voice_insights [("Happy", 80)] 100 0 80 =
      [Voice.elevated_concern_voice_insight, Voice.positive_vocal_insight] := by
    simp [Voice.generate_voice_insights, getD]
    norm_num
  refine ⟨h, by norm_num, ?_, ?_⟩
  · rw [h]; simp
  · rw [h]
    simp [List.getLast?, Voice.positive_vocal_insight,
      Voice.elevated_concern_voice_insight]

/-- C8 amended: whenever the risk score exceeds 70 on the 0-100 scale, the
elevated-concern ("recommend professional consultation") insight is present in
the output of both insight generators; in the facial generator it is always
the last element, while in the voice generator it is the last element only
when the Happy score does not exceed 60 (otherwise the positive-vocal
insight follows it). -/
theorem elevated_concern_insight_amended :
    (∀ (emotions : EmotionData) (risk_score : ℚ) (dominant_emotion : String),
      risk_score > 70 →
      Facial.elevated_concern_facial_insight ∈
        Facial.generate_facial_insights emotions risk_score dominant_emotion ∧
      (Facial.generate_facial_insights emotions risk_score dominant_emotion).getLast? =
        some Facial.elevated_concern_facial_insight) ∧
    (∀ (emotions : EmotionData) (tempo energy risk_score : ℚ),
      risk_score > 70 →
      Voice.elevated_concern_voice_insight ∈
        Voice.generate_voice_insights emotions tempo energy risk_score ∧
      (getD emotions "Happy" ≤ 60 →
        (Voice.generate_voice_insights emotions tempo energy risk_score).getLast? =
          some Voice.elevated_concern_voice_insight)) := by
  constructor
  · intro emotions risk_score dominant_emotion hr
    rw [Facial.generate_facial_insights, if_pos hr]
    exact ⟨by simp, getLast?_append_singleton _ _⟩
  · intro emotions tempo energy risk_score hr
    rw [Voice.generate_voice_insights, if_pos hr]
    refine ⟨by simp, ?_⟩
    intro hh
    rw [if_neg (show ¬(getD emotions "Happy" > 60) from not_lt.mpr hh),
      List.append_nil]
    exact getLast?_append_singleton _ _

/-- Witness for `elevated_concern_insight_amended` at concrete inputs. -/
theorem elevated_concern_insight_amended_witness :
    (Facial.elevated_concern_facial_insight ∈
        Facial.generate_facial_insights [] 80 "Neutral" ∧
      (Facial.generate_facial_insights [] 80 "Neutral").getLast? =
        some Facial.elevated_concern_facial_insight) ∧
    (Voice.elevated_concern_voice_insight ∈
        Voice.generate_voice_insights [] 100 0 80 ∧
      (getD [] "Happy" ≤ 60 →
        (Voice.generate_voice_insights [] 100 0 80).getLast? =
          some Voice.elevated_concern_voice_insight)) :=
  ⟨elevated_concern_insight_amended.1 [] 80 "Neutral" (by norm_num),
   elevated_concern_insight_amended.2 [] 100 0 80 (by norm_num)⟩

theorem calculate_risk_score_textVector_zero (j sa an fe su di ne : ℚ)
    (h : j + sa + an + fe + su + di + ne = 0) :
    TextEmotion.calculate_risk_score (textVector j sa an fe su di ne) = 0 := by
  simp only [TextEmotion.calculate_risk_score, TextEmotion.weights, textVector]
  simp [getD, hasKey, valuesSum]
  intro h0
  exact absurd (show j + (sa + (an + (fe + (su + (di + ne))))) = 0 by linarith) h0

theorem calculate_wellness_score_textVector_zero (j sa an fe su di ne : ℚ)
    (h : j + sa + an + fe + su + di + ne = 0) :
    TextEmotion.calculate_wellness_score (textVector j sa an fe su di ne) = 5 := by
  simp only [TextEmotion.calculate_wellness_score, TextEmotion.positive_emotions,
    TextEmotion.negative_emotions, textVector]
  simp [getD]
  intro h0
  exact absurd (show j + su + (an + (sa + (fe + di))) + ne = 0 by linarith) h0

/-- C9: for the count/proportion-based text scorers, increasing the sadness
component of a vector while all other components are held fixed does not
decrease the risk score and does not increase the wellness score; moreover
both scorers are invariant under rescaling of the whole vector by any
positive factor, so the same monotonicity holds for the renormalized vector. -/
theorem sadness_monotonicity :
    (∀ j sa sa2 an fe su di ne : ℚ, 0 ≤ j → 0 ≤ sa → 0 ≤ an → 0 ≤ fe → 0 ≤ su →
      0 ≤ di → 0 ≤ ne → sa ≤ sa2 →
      TextEmotion.calculate_risk_score (textVector j sa an fe su di ne) ≤
        TextEmotion.calculate_risk_score (textVector j sa2 an fe su di ne) ∧
      TextEmotion.calculate_wellness_score (textVector j sa2 an fe su di ne) ≤
        TextEmotion.calculate_wellness_score (textVector j sa an fe su di ne)) ∧
    (∀ j sa an fe su di ne lam : ℚ, 0 < lam →
      TextEmotion.calculate_risk_score
          (textVector (lam*j) (lam*sa) (lam*an) (lam*fe) (lam*su) (lam*di) (lam*ne)) =
        TextEmotion.calculate_risk_score (textVector j sa an fe su di ne) ∧
      TextEmotion.calculate_wellness_score
          (textVector (lam*j) (lam*sa) (lam*an) (lam*fe) (lam*su) (lam*di) (lam*ne)) =
        TextEmotion.calculate_wellness_score (textVector j sa an fe su di ne)) := by
  constructor
  · intro j sa sa2 an fe su di ne hj hsa han hfe hsu hdi hne hss
    by_cases h1 : j + sa + an + fe + su + di + ne = 0
    · by_cases h2 : j + sa2 + an + fe + su + di + ne = 0
      · have hsa0 : sa = 0 := by linarith
        have hsa20 : sa2 = 0 := by linarith
        rw [hsa0, hsa20]
        exact ⟨le_refl _, le_refl _⟩
      · have hT2 : (0:ℚ) < j + sa2 + an + fe + su + di + ne :=
          lt_of_le_of_ne (by linarith) (Ne.symm h2)
        have hj0 : j = 0 := by linarith
        have hsu0 : su = 0 := by linarith
        have hne0 : ne = 0 := by linarith
        constructor
        · rw [calculate_risk_score_textVector_zero j sa an fe su di ne h1,
            calculate_risk_score_textVector j sa2 an fe su di ne h2]
          exact pyRound_nonneg (div_nonneg (by linarith) hT2.le)
        · rw [calculate_wellness_score_textVector_zero j sa an fe su di ne h1,
            calculate_wellness_score_textVector j sa2 an fe su di ne h2,
            hj0, hsu0, hne0]
          have h0 : ((0:ℚ) + 0 + (1/2) * 0) * 10 / (0 + sa2 + an + fe + 0 + di + 0) = 0 := by
            simp
          rw [h0]
          norm_num [pyRound, roundHalfEven, ratFloor_eq_intFloor]
    · have h2 : j + sa2 + an + fe + su + di + ne ≠ 0 := by
        intro hc
        exact h1 (by linarith)
      have hT1 : (0:ℚ) < j + sa + an + fe + su + di + ne :=
        lt_of_le_of_ne (by linarith) (Ne.symm h1)
      have hT2 : (0:ℚ) < j + sa2 + an + fe + su + di + ne :=
        lt_of_le_of_ne (by linarith) (Ne.symm h2)
      rw [calculate_risk_score_textVector j sa an fe su di ne h1,
        calculate_risk_score_textVector j sa2 an fe su di ne h2,
        calculate_wellness_score_textVector j sa an fe su di ne h1,
        calculate_wellness_score_textVector j sa2 an fe su di ne h2]
      constructor
      · apply pyRound_mono
        rw [div_le_div_iff hT1 hT2]
        nlinarith [mul_nonneg (sub_nonneg.mpr hss)
          (show (0:ℚ) ≤ (45/100)*(j+an+fe+su+di+ne) -
            (fe*(30/100) + an*(20/100) + di*(15/100)) by linarith)]
      · apply pyRound_mono
        rw [div_le_div_iff hT2 hT1]
        nlinarith [mul_nonneg (show (0:ℚ) ≤ (j + su + (1/2)*ne) * 10 by linarith)
          (sub_nonneg.mpr hss)]
  · intro j sa an fe su di ne lam hlam
    have hlam0 : lam ≠ 0 := ne_of_gt hlam
    by_cases h1 : j + sa + an + fe + su + di + ne = 0
    · have h2 : lam*j + lam*sa + lam*an + lam*fe + lam*su + lam*di + lam*ne = 0 := by
        linear_combination lam * h1
      rw [calculate_risk_score_textVector_zero _ _ _ _ _ _ _ h2,
        calculate_risk_score_textVector_zero _ _ _ _ _ _ _ h1,
        calculate_wellness_score_textVector_zero _ _ _ _ _ _ _ h2,
        calculate_wellness_score_textVector_zero _ _ _ _ _ _ _ h1]
      exact ⟨rfl, rfl⟩
    · have h2 : lam*j + lam*sa + lam*an + lam*fe + lam*su + lam*di + lam*ne ≠ 0 := by
        intro hc
        apply h1
        have hm : lam * (j + sa + an + fe + su + di + ne) = 0 := by
          linear_combination hc
        exact (mul_eq_zero.mp hm).resolve_left hlam0
      rw [calculate_risk_score_textVector _ _ _ _ _ _ _ h2,
        calculate_risk_score_textVector _ _ _ _ _ _ _ h1,
        calculate_wellness_score_textVector _ _ _ _ _ _ _ h2,
        calculate_wellness_score_textVector _ _ _ _ _ _ _ h1]
      constructor
      · congr 1
        rw [div_eq_div_iff h2 h1]
        ring
      · congr 1
        rw [div_eq_div_iff h2 h1]
        ring

/-- Witness for `sadness_monotonicity` at concrete inputs. -/
theorem sadness_monotonicity_witness :
    (TextEmotion.calculate_risk_score (textVector 10 5 10 10 5 0 10) ≤
        TextEmotion.calculate_risk_score (textVector 10 25 10 10 5 0 10) ∧
      TextEmotion.calculate_wellness_score (textVector 10 25 10 10 5 0 10) ≤
        TextEmotion.calculate_wellness_score (textVector 10 5 10 10 5 0 10)) ∧
    (TextEmotion.calculate_risk_score
          (textVector (2*10) (2*5) (2*10) (2*10) (2*5) (2*0) (2*10)) =
        TextEmotion.calculate_risk_score (textVector 10 5 10 10 5 0 10) ∧
      TextEmotion.calculate_wellness_score
          (textVector (2*10) (2*5) (2*10) (2*10) (2*5) (2*0) (2*10)) =
        TextEmotion.calculate_wellness_score (textVector 10 5 10 10 5 0 10)) :=
  ⟨sadness_monotonicity.1 10 5 25 10 10 5 0 10 (by norm_num) (by norm_num)
      (by norm_num) (by norm_num) (by norm_num) (by norm_num) (by norm_num)
      (by norm_num),
   sadness_monotonicity.2 10 5 10 10 5 0 10 2 (by norm_num)⟩

/-- C10: for every count mapping with non-negative values, the count-aggregate
risk scorer of the text session module returns at most 4.5 on the 0-10 scale
(0.45 is the largest weight and the weighted proportions sum to at most 1), so
its output can never reach the "High Risk" or "Critical Risk" tiers of the
tier classifier. -/
theorem count_aggregate_risk_capped (d : EmotionData) (hd : ∀ p ∈ d, 0 ≤ p.2) :
    TextEmotion.calculate_risk_score d ≤ 9/2 ∧
    (TextEmotion.get_risk_level (TextEmotion.calculate_risk_score d)).1 ≠
      "High Risk" ∧
    (TextEmotion.get_risk_level (TextEmotion.calculate_risk_score d)).1 ≠
      "Critical Risk" := by
  have hrisk : TextEmotion.calculate_risk_score d ≤ 9/2 := by
    simp only [TextEmotion.calculate_risk_score, TextEmotion.weights]
    simp [ite_hasKey_contrib]
    split_ifs with h0
    · norm_num
    · have hT : 0 < valuesSum d := lt_of_le_of_ne (valuesSum_nonneg d hd) (Ne.symm h0)
      refine le_trans (pyRound_le_of_le_int (m := 450) ?_) (by norm_num)
      have hs := four_getD_le_valuesSum d hd
      have h1 := getD_nonneg d hd "sadness"
      have h2 := getD_nonneg d hd "fear"
      have h3 := getD_nonneg d hd "anger"
      have h4 := getD_nonneg d hd "disgust"
      have hdiv : getD d "sadness" / valuesSum d + getD d "fear" / valuesSum d +
          getD d "anger" / valuesSum d + getD d "disgust" / valuesSum d ≤ 1 := by
        rw [div_add_div_same, div_add_div_same, div_add_div_same]
        exact (div_le_one hT).mpr hs
      have e1 := div_nonneg h1 hT.le
      have e2 := div_nonneg h2 hT.le
      have e3 := div_nonneg h3 hT.le
      have e4 := div_nonneg h4 hT.le
      ring_nf
      ring_nf at hdiv e1 e2 e3 e4
      linarith
  have hge7 : ¬ (TextEmotion.calculate_risk_score d ≥ 7) := by intro hc; linarith
  have hge5 : ¬ (TextEmotion.calculate_risk_score d ≥ 5) := by intro hc; linarith
  refine ⟨hrisk, ?_, ?_⟩ <;>
  · simp only [TextEmotion.get_risk_level, if_neg hge7, if_neg hge5]
    split_ifs <;> simp

/-- Witness for `count_aggregate_risk_capped` at a concrete count mapping. -/
theorem count_aggregate_risk_capped_witness :
    TextEmotion.calculate_risk_score [("sadness", 10)] ≤ 9/2 ∧
    (TextEmotion.get_risk_level (TextEmotion.calculate_risk_score [("sadness", 10)])).1 ≠
      "High Risk" ∧
    (TextEmotion.get_risk_level (TextEmotion.calculate_risk_score [("sadness", 10)])).1 ≠
      "Critical Risk" :=
  count_aggregate_risk_capped [("sadness", 10)]
    (by intro p hp; simp at hp; simp [hp])
